import Mathlib

/-!
Shallow embedding of `gns3server/modules/dynamips/nodes/atm_switch.py`
(class `ATMSwitch`).

The Python class mutates `self._nios`, `self._mapping` and `self._name` in
place and signals failure by raising; each command sent to the Dynamips
hypervisor is a text line passed to `self._hypervisor.send(...)`, which
either acknowledges or raises.  Here every operation is a pure function
returning, in order: the list of command strings it sent over the channel
(in order), the device state at the moment the operation returns or raises,
and an `Except` outcome.  State updates are placed exactly where the Python
code assigns to `self`, so "the table is unchanged on failure" is a theorem
about the translation, not an artifact of the encoding.

Python dictionaries are embedded as association lists with unique keys and
insertion-order semantics (`insertA` updates in place or appends, `eraseA`
removes the first occurrence, mirroring `d[k] = v` and `del d[k]`).
-/

namespace ATMSw

deriving instance DecidableEq for Except

/-- Association-list lookup, embedding `d[k]` / `k in d` on a Python dict. -/
def lookupA {α β : Type} [DecidableEq α] : List (α × β) → α → Option β
  | [], _ => none
  | p :: rest, k => if p.1 = k then some p.2 else lookupA rest k

/-- Association-list insert, embedding `d[k] = v`: updates the existing
entry in place, or appends a new one, preserving insertion order. -/
def insertA {α β : Type} [DecidableEq α] : List (α × β) → α → β → List (α × β)
  | [], k, v => [(k, v)]
  | p :: rest, k, v => if p.1 = k then (k, v) :: rest else p :: insertA rest k v

/-- Association-list erase, embedding `del d[k]` on a dict with unique
keys: removes the first entry with key `k` (the only one, for a dict). -/
def eraseA {α β : Type} [DecidableEq α] : List (α × β) → α → List (α × β)
  | [], _ => []
  | p :: rest, k => if p.1 = k then rest else p :: eraseA rest k

/-- NIO handle as seen by `atm_switch.py`: its string form (used when
rendering hypervisor commands via `format`) and the first components of its
`input_filter` / `output_filter` tuples `(filter_name, filter_options)`,
which `start_capture` inspects with `nio.input_filter[0]`.  The NIO object
itself is an external collaborator; only the data this module reads is
modelled. -/
structure Nio where
  name : String
  input_filter : Option String × Option String
  output_filter : Option String × Option String
deriving DecidableEq, Repr

/-- Keys of `self._mapping`: Python tuples `(port, vpi)` for VP circuits
and `(port, vpi, vci)` for VC circuits.  Tuples of different arity never
compare equal in Python, which the two constructors capture. -/
inductive CircuitKey where
  | vp (port vpi : Nat)
  | vc (port vpi vci : Nat)
deriving DecidableEq, Repr

/-- Failure outcomes of the operations.  `dynamips` is a `DynamipsError`
raised locally with its message; `channelError` is the spec's
`ProtocolError`: `hypervisor.send` failed for the given command;
`keyError` is the Python `KeyError` raised by `del self._mapping[key]`
on a missing key, and it carries that key just as the Python exception
does; `nioError` is a failing NIO filter-capability call. -/
inductive Err where
  | dynamips (msg : String)
  | channelError (cmd : String)
  | keyError (key : CircuitKey)
  | nioError
deriving DecidableEq, Repr

/-- Calls made to the NIO filter capability by the capture operations:
`nio.bind_filter(direction, name)`, `nio.setup_filter(direction, args)`,
`nio.unbind_filter(direction)`. -/
inductive NioCall where
  | bind (direction fname : String)
  | setup (direction args : String)
  | unbind (direction : String)
deriving DecidableEq, Repr

/-- The device state of `ATMSwitch`: `_name`, the `_id` assigned by the
`Device` base class, the port table `_nios` and the circuit table
`_mapping`. -/
structure ATMSwitch where
  name : String
  node_id : Nat
  nios : List (Nat × Nio)
  mapping : List (CircuitKey × CircuitKey)
deriving DecidableEq, Repr

/-- Wraps a string in double quotes, as the `"{name}"` parts of the
command templates do. -/
def q (s : String) : String := "\"" ++ s ++ "\""

/-- The hypervisor command channel: for each command string, whether
`send` acknowledges it (`true`) or raises (`false`). -/
abbrev Channel := String → Bool

/-- The NIO filter capability: for each call, whether it succeeds. -/
abbrev NioChannel := NioCall → Bool

/-- Python `str.lower()`: lower-cases every character. -/
def pyLower (s : String) : String := String.mk (s.data.map Char.toLower)

/-- Python `str.startswith(pre)`: prefix test on the characters. -/
def pyStartsWith (s pre : String) : Bool := pre.data.isPrefixOf s.data

/-- Python slicing `s[n:]`: drops the first `n` characters. -/
def pyDrop (s : String) (n : Nat) : String := String.mk (s.data.drop n)

/-- `ATMSwitch.has_port`: pure membership test on `self._nios`. -/
def has_port (sw : ATMSwitch) (port : Nat) : Bool :=
  (lookupA sw.nios port).isSome

/-- `ATMSwitch.add_nio`: raises `DynamipsError("Port {} isn't free")` if
the port already has a NIO, otherwise binds it.  No hypervisor command is
sent. -/
def add_nio (sw : ATMSwitch) (nio : Nio) (port_number : Nat) :
    ATMSwitch × Except Err Unit :=
  if (lookupA sw.nios port_number).isSome then
    (sw, Except.error (Err.dynamips ("Port " ++ toString port_number ++ " isn\x27t free")))
  else
    ({ sw with nios := insertA sw.nios port_number nio }, Except.ok ())

/-- `ATMSwitch.remove_nio`: raises `DynamipsError("Port {} is not
allocated")` if absent, otherwise removes the entry and returns the NIO.
No hypervisor command is sent. -/
def remove_nio (sw : ATMSwitch) (port_number : Nat) :
    ATMSwitch × Except Err Nio :=
  match lookupA sw.nios port_number with
  | none =>
      (sw, Except.error (Err.dynamips ("Port " ++ toString port_number ++ " is not allocated")))
  | some nio =>
      ({ sw with nios := eraseA sw.nios port_number }, Except.ok nio)

/-- `ATMSwitch.set_name`: sends `atm rename "<old>" "<new>"` and assigns
`self._name` only after the acknowledgement. -/
def set_name (ch : Channel) (sw : ATMSwitch) (new_name : String) :
    List String × ATMSwitch × Except Err Unit :=
  let cmd := "atm rename " ++ q sw.name ++ " " ++ q new_name
  if ch cmd then
    ([cmd], { sw with name := new_name }, Except.ok ())
  else
    ([cmd], sw, Except.error (Err.channelError cmd))

/-- `ATMSwitch.map_vp`: validates both ports, sends
`atmsw create_vpc "<name>" <nio1> <vpi1> <nio2> <vpi2>`, and records
`self._mapping[(port1, vpi1)] = (port2, vpi2)` only after the
acknowledgement. -/
def map_vp (ch : Channel) (sw : ATMSwitch) (port1 vpi1 port2 vpi2 : Nat) :
    List String × ATMSwitch × Except Err Unit :=
  match lookupA sw.nios port1 with
  | none =>
      ([], sw, Except.error (Err.dynamips ("Port " ++ toString port1 ++ " is not allocated")))
  | some nio1 =>
    match lookupA sw.nios port2 with
    | none =>
        ([], sw, Except.error (Err.dynamips ("Port " ++ toString port2 ++ " is not allocated")))
    | some nio2 =>
      let cmd := "atmsw create_vpc " ++ q sw.name ++ " " ++ nio1.name ++ " "
        ++ toString vpi1 ++ " " ++ nio2.name ++ " " ++ toString vpi2
      if ch cmd then
        ([cmd],
         { sw with mapping := insertA sw.mapping (CircuitKey.vp port1 vpi1) (CircuitKey.vp port2 vpi2) },
         Except.ok ())
      else
        ([cmd], sw, Except.error (Err.channelError cmd))

/-- `ATMSwitch.unmap_vp`: validates both ports, sends
`atmsw delete_vpc "<name>" <nio1> <vpi1> <nio2> <vpi2>`, and only then
executes `del self._mapping[(port1, vpi1)]`, which raises `KeyError` if
the key is absent. -/
def unmap_vp (ch : Channel) (sw : ATMSwitch) (port1 vpi1 port2 vpi2 : Nat) :
    List String × ATMSwitch × Except Err Unit :=
  match lookupA sw.nios port1 with
  | none =>
      ([], sw, Except.error (Err.dynamips ("Port " ++ toString port1 ++ " is not allocated")))
  | some nio1 =>
    match lookupA sw.nios port2 with
    | none =>
        ([], sw, Except.error (Err.dynamips ("Port " ++ toString port2 ++ " is not allocated")))
    | some nio2 =>
      let cmd := "atmsw delete_vpc " ++ q sw.name ++ " " ++ nio1.name ++ " "
        ++ toString vpi1 ++ " " ++ nio2.name ++ " " ++ toString vpi2
      if ch cmd then
        match lookupA sw.mapping (CircuitKey.vp port1 vpi1) with
        | none => ([cmd], sw, Except.error (Err.keyError (CircuitKey.vp port1 vpi1)))
        | some _ =>
            ([cmd],
             { sw with mapping := eraseA sw.mapping (CircuitKey.vp port1 vpi1) },
             Except.ok ())
      else
        ([cmd], sw, Except.error (Err.channelError cmd))

/-- `ATMSwitch.map_pvc`: validates both ports, sends
`atmsw create_vcc "<name>" <nio1> <vpi1> <vci1> <nio2> <vpi2> <vci2>`, and
records `self._mapping[(port1, vpi1, vci1)] = (port2, vpi2, vci2)` only
after the acknowledgement. -/
def map_pvc (ch : Channel) (sw : ATMSwitch) (port1 vpi1 vci1 port2 vpi2 vci2 : Nat) :
    List String × ATMSwitch × Except Err Unit :=
  match lookupA sw.nios port1 with
  | none =>
      ([], sw, Except.error (Err.dynamips ("Port " ++ toString port1 ++ " is not allocated")))
  | some nio1 =>
    match lookupA sw.nios port2 with
    | none =>
        ([], sw, Except.error (Err.dynamips ("Port " ++ toString port2 ++ " is not allocated")))
    | some nio2 =>
      let cmd := "atmsw create_vcc " ++ q sw.name ++ " " ++ nio1.name ++ " "
        ++ toString vpi1 ++ " " ++ toString vci1 ++ " " ++ nio2.name ++ " "
        ++ toString vpi2 ++ " " ++ toString vci2
      if ch cmd then
        ([cmd],
         { sw with mapping := insertA sw.mapping (CircuitKey.vc port1 vpi1 vci1) (CircuitKey.vc port2 vpi2 vci2) },
         Except.ok ())
      else
        ([cmd], sw, Except.error (Err.channelError cmd))

/-- `ATMSwitch.unmap_pvc`: validates both ports, sends
`atmsw delete_vcc "<name>" <nio1> <vpi1> <vci1> <nio2> <vpi2> <vci2>`, and
only then executes `del self._mapping[(port1, vpi1, vci1)]`, which raises
`KeyError` if the key is absent. -/
def unmap_pvc (ch : Channel) (sw : ATMSwitch) (port1 vpi1 vci1 port2 vpi2 vci2 : Nat) :
    List String × ATMSwitch × Except Err Unit :=
  match lookupA sw.nios port1 with
  | none =>
      ([], sw, Except.error (Err.dynamips ("Port " ++ toString port1 ++ " is not allocated")))
  | some nio1 =>
    match lookupA sw.nios port2 with
    | none =>
        ([], sw, Except.error (Err.dynamips ("Port " ++ toString port2 ++ " is not allocated")))
    | some nio2 =>
      let cmd := "atmsw delete_vcc " ++ q sw.name ++ " " ++ nio1.name ++ " "
        ++ toString vpi1 ++ " " ++ toString vci1 ++ " " ++ nio2.name ++ " "
        ++ toString vpi2 ++ " " ++ toString vci2
      if ch cmd then
        match lookupA sw.mapping (CircuitKey.vc port1 vpi1 vci1) with
        | none => ([cmd], sw, Except.error (Err.keyError (CircuitKey.vc port1 vpi1 vci1)))
        | some _ =>
            ([cmd],
             { sw with mapping := eraseA sw.mapping (CircuitKey.vc port1 vpi1 vci1) },
             Except.ok ())
      else
        ([cmd], sw, Except.error (Err.channelError cmd))

/-- `ATMSwitch.start_capture` (the Python default for `data_link_type` is
`"DLT_ATM_RFC1483"`): validates the port, lower-cases `data_link_type` and
strips a leading `"dlt_"`, raises `DynamipsError("Port {} has already a
filter applied")` when the first components of BOTH `nio.input_filter` and
`nio.output_filter` are non-None (the Python test uses `and`), then calls
`nio.bind_filter("both", "capture")` followed by
`nio.setup_filter("both", "<dlt> <output_file>")`.  The device tables are
never written. -/
def start_capture (nioCh : NioChannel) (sw : ATMSwitch) (port_number : Nat)
    (output_file : String) (data_link_type : String) :
    List NioCall × ATMSwitch × Except Err Unit :=
  match lookupA sw.nios port_number with
  | none =>
      ([], sw, Except.error (Err.dynamips ("Port " ++ toString port_number ++ " is not allocated")))
  | some nio =>
    let dlt0 := pyLower data_link_type
    let dlt := if pyStartsWith dlt0 "dlt_" then pyDrop dlt0 4 else dlt0
    if nio.input_filter.1.isSome && nio.output_filter.1.isSome then
      ([], sw, Except.error (Err.dynamips ("Port " ++ toString port_number ++ " has already a filter applied")))
    else
      let c1 := NioCall.bind "both" "capture"
      if nioCh c1 then
        let c2 := NioCall.setup "both" (dlt ++ " " ++ output_file)
        if nioCh c2 then
          ([c1, c2], sw, Except.ok ())
        else
          ([c1, c2], sw, Except.error Err.nioError)
      else
        ([c1], sw, Except.error Err.nioError)

/-- `ATMSwitch.stop_capture`: validates the port, then calls
`nio.unbind_filter("both")`.  The device tables are never written. -/
def stop_capture (nioCh : NioChannel) (sw : ATMSwitch) (port_number : Nat) :
    List NioCall × ATMSwitch × Except Err Unit :=
  match lookupA sw.nios port_number with
  | none =>
      ([], sw, Except.error (Err.dynamips ("Port " ++ toString port_number ++ " is not allocated")))
  | some _ =>
    let c := NioCall.unbind "both"
    if nioCh c then
      ([c], sw, Except.ok ())
    else
      ([c], sw, Except.error Err.nioError)

/-- Whether an outcome is a channel failure (the spec's `ProtocolError`). -/
def isChannelFailure {α : Type} : Except Err α → Bool
  | Except.error (Err.channelError _) => true
  | _ => false

/-- Shared concrete NIO fixture with no active filters. -/
def nioA : Nio := { name := "nio_udp_A", input_filter := (none, none), output_filter := (none, none) }

/-- Shared concrete NIO fixture with no active filters. -/
def nioB : Nio := { name := "nio_udp_B", input_filter := (none, none), output_filter := (none, none) }

/-- Shared concrete device fixture: ports 1 and 2 allocated, no circuits. -/
def swAB : ATMSwitch := { name := "SW1", node_id := 1, nios := [(1, nioA), (2, nioB)], mapping := [] }

/-- Concrete device with only port 2 allocated. -/
def swOnly2 : ATMSwitch := { name := "SW1", node_id := 1, nios := [(2, nioB)], mapping := [] }

/-- Concrete NIO with an active filter on the input direction only. -/
def nioIn : Nio := { name := "nio_udp_C", input_filter := (some "capture", none), output_filter := (none, none) }

/-- Concrete NIO with active filters on both directions. -/
def nioBoth : Nio := { name := "nio_udp_D", input_filter := (some "capture", some "x"), output_filter := (some "capture", some "x") }

/-- Concrete device whose port 3 carries `nioIn`. -/
def swIn : ATMSwitch := { name := "SW1", node_id := 1, nios := [(3, nioIn)], mapping := [] }

/-- Concrete device whose port 3 carries `nioBoth`. -/
def swBoth : ATMSwitch := { name := "SW1", node_id := 1, nios := [(3, nioBoth)], mapping := [] }

/-- Concrete device where the VP source key `(1, 5)` is already mapped. -/
def swPre : ATMSwitch :=
  { name := "SW1", node_id := 1, nios := [(1, nioA), (2, nioB)],
    mapping := [(CircuitKey.vp 1 5, CircuitKey.vp 3 9)] }

/-- Concrete device with several circuits, for the frame properties. -/
def swCirc : ATMSwitch :=
  { name := "SW1", node_id := 1, nios := [(1, nioA), (2, nioB)],
    mapping := [(CircuitKey.vp 1 5, CircuitKey.vp 2 7),
                (CircuitKey.vc 1 5 100, CircuitKey.vc 2 7 200),
                (CircuitKey.vp 2 9, CircuitKey.vp 1 3)] }

/-- Concrete device named SW1, id 1, with port 0 occupied. -/
def swN1 : ATMSwitch := { name := "SW1", node_id := 1, nios := [(0, nioA)], mapping := [] }

/-- Concrete device named SW2, id 2, with port 0 occupied. -/
def swN2 : ATMSwitch := { name := "SW2", node_id := 2, nios := [(0, nioA)], mapping := [] }

/-! Association-list lemmas shared by the frame and round-trip proofs. -/

theorem lookupA_insertA_self {α β : Type} [DecidableEq α] (l : List (α × β)) (k : α) (v : β) :
    lookupA (insertA l k v) k = some v := by
  induction l with
  | nil => simp [insertA, lookupA]
  | cons p rest ih =>
    by_cases hp : p.1 = k
    · simp [insertA, lookupA, hp]
    · simp [insertA, lookupA, hp, ih]

theorem eraseA_insertA_of_not_mem {α β : Type} [DecidableEq α] (l : List (α × β)) (k : α) (v : β)
    (h : lookupA l k = none) : eraseA (insertA l k v) k = l := by
  induction l with
  | nil => simp [insertA, eraseA]
  | cons p rest ih =>
    by_cases hp : p.1 = k
    · simp [lookupA, hp] at h
    · have h2 : lookupA rest k = none := by simpa [lookupA, hp] using h
      simp [insertA, eraseA, hp, ih h2]

theorem lookupA_eraseA_ne {α β : Type} [DecidableEq α] (l : List (α × β)) (k kx : α)
    (h : kx ≠ k) : lookupA (eraseA l k) kx = lookupA l kx := by
  induction l with
  | nil => rfl
  | cons p rest ih =>
    by_cases hp : p.1 = k
    · have hk : ¬ k = kx := fun hc => h hc.symm
      simp [eraseA, lookupA, hp, hk]
    · simp only [eraseA, if_neg hp]
      by_cases hx : p.1 = kx
      · simp [lookupA, hx]
      · simp [lookupA, hx, ih]

theorem lookupA_eq_none_of_not_mem {α β : Type} [DecidableEq α] (l : List (α × β)) (k : α)
    (h : k ∉ l.map Prod.fst) : lookupA l k = none := by
  induction l with
  | nil => rfl
  | cons p rest ih =>
    simp only [List.map_cons, List.mem_cons, not_or] at h
    have hp : ¬ p.1 = k := fun hc => h.1 hc.symm
    simp [lookupA, hp, ih h.2]

theorem lookupA_eraseA_self {α β : Type} [DecidableEq α] (l : List (α × β)) (k : α)
    (h : (l.map Prod.fst).Nodup) : lookupA (eraseA l k) k = none := by
  induction l with
  | nil => rfl
  | cons p rest ih =>
    simp only [List.map_cons, List.nodup_cons] at h
    by_cases hp : p.1 = k
    · have : k ∉ rest.map Prod.fst := by rw [← hp]; exact h.1
      simp [eraseA, hp, lookupA_eq_none_of_not_mem rest k this]
    · simp [eraseA, lookupA, hp, ih h.2]

/-- C1: if the hypervisor channel fails every `send` (raises instead of
acknowledging), then `set_name`, `map_vp`, `unmap_vp`, `map_pvc` and
`unmap_pvc` each propagate a channel failure (the spec's `ProtocolError`)
and return the device state exactly as it was before the call: the stored
name and the circuits table are untouched, and in particular a failed
`map_vp` adds no entry. -/
theorem c1_channel_failure_leaves_state_unchanged (ch : Channel)
    (hch : ∀ c, ch c = false) (sw : ATMSwitch) (new_name : String)
    (p1 v1 p2 v2 w1 w2 : Nat)
    (h1 : (lookupA sw.nios p1).isSome = true) (h2 : (lookupA sw.nios p2).isSome = true) :
    ((set_name ch sw new_name).2.1 = sw
      ∧ isChannelFailure (set_name ch sw new_name).2.2 = true)
    ∧ ((map_vp ch sw p1 v1 p2 v2).2.1 = sw
      ∧ isChannelFailure (map_vp ch sw p1 v1 p2 v2).2.2 = true)
    ∧ ((unmap_vp ch sw p1 v1 p2 v2).2.1 = sw
      ∧ isChannelFailure (unmap_vp ch sw p1 v1 p2 v2).2.2 = true)
    ∧ ((map_pvc ch sw p1 v1 w1 p2 v2 w2).2.1 = sw
      ∧ isChannelFailure (map_pvc ch sw p1 v1 w1 p2 v2 w2).2.2 = true)
    ∧ ((unmap_pvc ch sw p1 v1 w1 p2 v2 w2).2.1 = sw
      ∧ isChannelFailure (unmap_pvc ch sw p1 v1 w1 p2 v2 w2).2.2 = true) := by
  obtain ⟨nio1, hl1⟩ := Option.isSome_iff_exists.mp h1
  obtain ⟨nio2, hl2⟩ := Option.isSome_iff_exists.mp h2
  simp [set_name, map_vp, unmap_vp, map_pvc, unmap_pvc, hl1, hl2, hch, isChannelFailure]

/-- Witness for C1 at the concrete device `swAB` with an always-failing
channel. -/
theorem c1_witness :
    (lookupA swAB.nios 1).isSome = true ∧ (lookupA swAB.nios 2).isSome = true
    ∧ ((map_vp (fun _ => false) swAB 1 5 2 7).2.1 = swAB
      ∧ isChannelFailure (map_vp (fun _ => false) swAB 1 5 2 7).2.2 = true)
    ∧ ((set_name (fun _ => false) swAB "SW9").2.1 = swAB
      ∧ isChannelFailure (set_name (fun _ => false) swAB "SW9").2.2 = true) :=
  ⟨by decide, by decide,
   (c1_channel_failure_leaves_state_unchanged (fun _ => false) (fun _ => rfl) swAB "SW9"
      1 5 2 7 100 200 (by decide) (by decide)).2.1,
   (c1_channel_failure_leaves_state_unchanged (fun _ => false) (fun _ => rfl) swAB "SW9"
      1 5 2 7 100 200 (by decide) (by decide)).1⟩

/-- C4: `map_vp` and `map_pvc` with at least one unallocated port fail
with the port-not-allocated `DynamipsError`, send zero commands over the
channel, and leave the whole device state (ports table and circuits
table) unchanged. -/
theorem c4_map_unallocated_port_fails_fast (ch : Channel) (sw : ATMSwitch)
    (p1 v1 w1 p2 v2 w2 : Nat)
    (h : lookupA sw.nios p1 = none ∨ lookupA sw.nios p2 = none) :
    ((map_vp ch sw p1 v1 p2 v2).1 = []
      ∧ (map_vp ch sw p1 v1 p2 v2).2.1 = sw
      ∧ ((map_vp ch sw p1 v1 p2 v2).2.2
            = Except.error (Err.dynamips ("Port " ++ toString p1 ++ " is not allocated"))
         ∨ (map_vp ch sw p1 v1 p2 v2).2.2
            = Except.error (Err.dynamips ("Port " ++ toString p2 ++ " is not allocated"))))
    ∧ ((map_pvc ch sw p1 v1 w1 p2 v2 w2).1 = []
      ∧ (map_pvc ch sw p1 v1 w1 p2 v2 w2).2.1 = sw
      ∧ ((map_pvc ch sw p1 v1 w1 p2 v2 w2).2.2
            = Except.error (Err.dynamips ("Port " ++ toString p1 ++ " is not allocated"))
         ∨ (map_pvc ch sw p1 v1 w1 p2 v2 w2).2.2
            = Except.error (Err.dynamips ("Port " ++ toString p2 ++ " is not allocated")))) := by
  cases hl1 : lookupA sw.nios p1 with
  | none => simp [map_vp, map_pvc, hl1]
  | some nio1 =>
    have hl2 : lookupA sw.nios p2 = none := by
      rcases h with h | h
      · rw [hl1] at h; cases h
      · exact h
    simp [map_vp, map_pvc, hl1, hl2]

/-- Witness for C4 at the concrete device `swOnly2`, whose port 1 is
unallocated. -/
theorem c4_witness :
    (lookupA swOnly2.nios 1 = none ∨ lookupA swOnly2.nios 2 = none)
    ∧ (map_vp (fun _ => true) swOnly2 1 5 2 7).1 = []
    ∧ (map_vp (fun _ => true) swOnly2 1 5 2 7).2.1 = swOnly2 :=
  ⟨Or.inl (by decide),
   (c4_map_unallocated_port_fails_fast (fun _ => true) swOnly2 1 5 100 2 7 200
      (Or.inl (by decide))).1.1,
   (c4_map_unallocated_port_fails_fast (fun _ => true) swOnly2 1 5 100 2 7 200
      (Or.inl (by decide))).1.2.1⟩

/-- C8: failing port-table operations leave the ports table unchanged:
`add_nio` on an occupied port fails with the port-conflict
`DynamipsError` and the port still maps to its original NIO, and
`remove_nio` on an unallocated port fails with the port-not-allocated
`DynamipsError` and the state is unchanged. -/
theorem c8_failed_port_ops_leave_table_unchanged (sw : ATMSwitch)
    (p r : Nat) (nio nio2 : Nio)
    (hp : lookupA sw.nios p = some nio) (hr : lookupA sw.nios r = none) :
    ((add_nio sw nio2 p).1 = sw
      ∧ (add_nio sw nio2 p).2
          = Except.error (Err.dynamips ("Port " ++ toString p ++ " isn\x27t free"))
      ∧ lookupA (add_nio sw nio2 p).1.nios p = some nio)
    ∧ ((remove_nio sw r).1 = sw
      ∧ (remove_nio sw r).2
          = Except.error (Err.dynamips ("Port " ++ toString r ++ " is not allocated"))) := by
  simp [add_nio, remove_nio, hp, hr]

/-- Witness for C8 at the concrete device `swAB` (port 1 occupied by
`nioA`, port 5 unallocated). -/
theorem c8_witness :
    lookupA swAB.nios 1 = some nioA ∧ lookupA swAB.nios 5 = none
    ∧ (add_nio swAB nioB 1).1 = swAB
    ∧ lookupA (add_nio swAB nioB 1).1.nios 1 = some nioA
    ∧ (remove_nio swAB 5).1 = swAB :=
  ⟨by decide, by decide,
   (c8_failed_port_ops_leave_table_unchanged swAB 1 5 nioA nioB (by decide) (by decide)).1.1,
   (c8_failed_port_ops_leave_table_unchanged swAB 1 5 nioA nioB (by decide) (by decide)).1.2.2,
   (c8_failed_port_ops_leave_table_unchanged swAB 1 5 nioA nioB (by decide) (by decide)).2.1⟩

/-- C10: `start_capture` and `stop_capture` never modify the ports table
or the circuits table, whether they succeed or fail: the device state
they return is the input state, so every port is bound to the same NIO
before and after either call. -/
theorem c10_capture_ops_preserve_tables (nioCh : NioChannel) (sw : ATMSwitch)
    (p : Nat) (f d : String) :
    ((start_capture nioCh sw p f d).2.1.nios = sw.nios
      ∧ (start_capture nioCh sw p f d).2.1.mapping = sw.mapping)
    ∧ ((stop_capture nioCh sw p).2.1.nios = sw.nios
      ∧ (stop_capture nioCh sw p).2.1.mapping = sw.mapping) := by
  have hs : (start_capture nioCh sw p f d).2.1 = sw := by
    unfold start_capture
    cases lookupA sw.nios p with
    | none => rfl
    | some nio =>
      dsimp only
      repeat' split
      all_goals rfl
  have ht : (stop_capture nioCh sw p).2.1 = sw := by
    unfold stop_capture
    cases lookupA sw.nios p with
    | none => rfl
    | some nio =>
      dsimp only
      split <;> rfl
  rw [hs, ht]
  exact ⟨⟨rfl, rfl⟩, rfl, rfl⟩

/-- C2 counterexample: on port 3 the NIO reports an active filter on the
input direction (and none on the output direction), yet `start_capture`
succeeds and does invoke `bind_filter` — the code tests
`input_filter[0] is not None and output_filter[0] is not None`, so a
filter on only one direction does not trigger the
filter-already-applied error claimed for "at least one of the two". -/
theorem c2_counterexample :
    (lookupA swIn.nios 3 = some nioIn ∧ nioIn.input_filter.1.isSome = true
      ∧ nioIn.output_filter.1.isSome = false)
    ∧ (start_capture (fun _ => true) swIn 3 "/tmp/out.pcap" "DLT_ATM_RFC1483").2.2 = Except.ok ()
    ∧ NioCall.bind "both" "capture"
        ∈ (start_capture (fun _ => true) swIn 3 "/tmp/out.pcap" "DLT_ATM_RFC1483").1 := by
  decide

/-- C2 amended: `start_capture` fails with the filter-already-applied
`DynamipsError` — sending no call to the NIO capability — exactly when
BOTH the input and the output direction report an active filter; when at
most one direction does, the `bind_filter` capability is invoked. -/
theorem c2_amended_filter_check_requires_both (nioCh : NioChannel)
    (sw : ATMSwitch) (p : Nat) (f d : String) (nio : Nio)
    (hl : lookupA sw.nios p = some nio) :
    ((nio.input_filter.1.isSome = true ∧ nio.output_filter.1.isSome = true) →
      start_capture nioCh sw p f d
        = ([], sw, Except.error (Err.dynamips ("Port " ++ toString p ++ " has already a filter applied"))))
    ∧ (¬(nio.input_filter.1.isSome = true ∧ nio.output_filter.1.isSome = true) →
      (start_capture nioCh sw p f d).1.head? = some (NioCall.bind "both" "capture")) := by
  constructor
  · intro h
    simp [start_capture, hl, h.1, h.2]
  · intro h
    have hb : (nio.input_filter.1.isSome && nio.output_filter.1.isSome) = false := by
      cases hi : nio.input_filter.1.isSome <;> cases ho : nio.output_filter.1.isSome <;> simp_all
    simp [start_capture, hl, hb]
    repeat' split
    all_goals rfl

/-- Witness for the amended C2 at the concrete device `swBoth`, whose
port 3 carries a NIO with filters active on both directions. -/
theorem c2_witness :
    (lookupA swBoth.nios 3 = some nioBoth
      ∧ nioBoth.input_filter.1.isSome = true ∧ nioBoth.output_filter.1.isSome = true)
    ∧ start_capture (fun _ => true) swBoth 3 "/tmp/out.pcap" "DLT_ATM_RFC1483"
        = ([], swBoth, Except.error (Err.dynamips ("Port 3 has already a filter applied"))) :=
  ⟨⟨by decide, by decide, by decide⟩,
   (c2_amended_filter_check_requires_both (fun _ => true) swBoth 3 "/tmp/out.pcap"
      "DLT_ATM_RFC1483" nioBoth (by decide)).1 ⟨by decide, by decide⟩⟩

/-- C3 counterexample: with ports 1 and 2 allocated and the circuits
table empty, `unmap_vp (1,5,2,7)` issues one `delete_vpc` command over
the channel before failing on the missing key — not the claimed zero
commands (the `KeyError` from `del self._mapping[...]` is raised only
after `hypervisor.send`); the circuits table is unchanged. -/
theorem c3_counterexample :
    lookupA swAB.mapping (CircuitKey.vp 1 5) = none
    ∧ (unmap_vp (fun _ => true) swAB 1 5 2 7).1.length = 1
    ∧ (unmap_vp (fun _ => true) swAB 1 5 2 7).2.2
        = Except.error (Err.keyError (CircuitKey.vp 1 5))
    ∧ (unmap_vp (fun _ => true) swAB 1 5 2 7).2.1 = swAB := by
  decide

/-- C3 amended: with both ports allocated but the source circuit key
absent, `unmap_vp` / `unmap_pvc` first send the delete command (exactly
one command) to an acknowledging channel and only then raise the
key-lookup failure; the device state, circuits table included, is
unchanged. -/
theorem c3_amended_unmap_missing_key_after_send (ch : Channel)
    (hch : ∀ c, ch c = true) (sw : ATMSwitch)
    (p1 v1 w1 p2 v2 w2 : Nat) (nio1 nio2 : Nio)
    (hl1 : lookupA sw.nios p1 = some nio1) (hl2 : lookupA sw.nios p2 = some nio2)
    (hv : lookupA sw.mapping (CircuitKey.vp p1 v1) = none)
    (hc : lookupA sw.mapping (CircuitKey.vc p1 v1 w1) = none) :
    ((unmap_vp ch sw p1 v1 p2 v2).1.length = 1
      ∧ (unmap_vp ch sw p1 v1 p2 v2).2.1 = sw
      ∧ (unmap_vp ch sw p1 v1 p2 v2).2.2
          = Except.error (Err.keyError (CircuitKey.vp p1 v1)))
    ∧ ((unmap_pvc ch sw p1 v1 w1 p2 v2 w2).1.length = 1
      ∧ (unmap_pvc ch sw p1 v1 w1 p2 v2 w2).2.1 = sw
      ∧ (unmap_pvc ch sw p1 v1 w1 p2 v2 w2).2.2
          = Except.error (Err.keyError (CircuitKey.vc p1 v1 w1))) := by
  simp [unmap_vp, unmap_pvc, hl1, hl2, hch, hv, hc]

/-- Witness for the amended C3 at the concrete device `swAB` with an
always-acknowledging channel. -/
theorem c3_witness :
    (lookupA swAB.nios 1 = some nioA ∧ lookupA swAB.nios 2 = some nioB
      ∧ lookupA swAB.mapping (CircuitKey.vp 1 5) = none
      ∧ lookupA swAB.mapping (CircuitKey.vc 1 5 100) = none)
    ∧ (unmap_pvc (fun _ => true) swAB 1 5 100 2 7 200).1.length = 1
    ∧ (unmap_pvc (fun _ => true) swAB 1 5 100 2 7 200).2.1 = swAB :=
  ⟨⟨by decide, by decide, by decide, by decide⟩,
   (c3_amended_unmap_missing_key_after_send (fun _ => true) (fun _ => rfl) swAB
      1 5 100 2 7 200 nioA nioB (by decide) (by decide) (by decide) (by decide)).2.1,
   (c3_amended_unmap_missing_key_after_send (fun _ => true) (fun _ => rfl) swAB
      1 5 100 2 7 200 nioA nioB (by decide) (by decide) (by decide) (by decide)).2.2.1⟩

/-- C5 counterexample: starting from `swPre`, where ports 1 and 2 are
allocated, the channel acknowledges everything, and `(1,5)` is already
mapped to `(3,9)`, the sequence `map_vp (1,5,2,7)` then
`unmap_vp (1,5,2,7)` succeeds but ends with a circuits table missing the
original `(1,5) -> (3,9)` entry — not "exactly equal to its value before
the `map_vp` call" as claimed for every starting state. -/
theorem c5_counterexample :
    (map_vp (fun _ => true) swPre 1 5 2 7).2.2 = Except.ok ()
    ∧ (unmap_vp (fun _ => true) (map_vp (fun _ => true) swPre 1 5 2 7).2.1 1 5 2 7).2.2
        = Except.ok ()
    ∧ (unmap_vp (fun _ => true) (map_vp (fun _ => true) swPre 1 5 2 7).2.1 1 5 2 7).2.1.mapping
        ≠ swPre.mapping := by
  decide

/-- C5 amended: if ports 1 and 2 are allocated, the channel acknowledges
every command, and the source key `(1,5)` is NOT yet in the circuits
table, then `map_vp (1,5,2,7)` followed by `unmap_vp (1,5,2,7)` leaves
the circuits table exactly equal to its value before the `map_vp` call,
with no residual `(1,5)` key. -/
theorem c5_amended_roundtrip_fresh_key (ch : Channel) (hch : ∀ c, ch c = true)
    (sw : ATMSwitch) (nio1 nio2 : Nio)
    (hl1 : lookupA sw.nios 1 = some nio1) (hl2 : lookupA sw.nios 2 = some nio2)
    (hfresh : lookupA sw.mapping (CircuitKey.vp 1 5) = none) :
    (map_vp ch sw 1 5 2 7).2.2 = Except.ok ()
    ∧ (unmap_vp ch (map_vp ch sw 1 5 2 7).2.1 1 5 2 7).2.2 = Except.ok ()
    ∧ (unmap_vp ch (map_vp ch sw 1 5 2 7).2.1 1 5 2 7).2.1.mapping = sw.mapping := by
  simp only [map_vp, unmap_vp, hl1, hl2, hch, if_true, lookupA_insertA_self]
  simp [lookupA_insertA_self, eraseA_insertA_of_not_mem sw.mapping _ _ hfresh]

/-- Witness for the amended C5 at the concrete device `swAB`. -/
theorem c5_witness :
    (lookupA swAB.nios 1 = some nioA ∧ lookupA swAB.nios 2 = some nioB
      ∧ lookupA swAB.mapping (CircuitKey.vp 1 5) = none)
    ∧ (unmap_vp (fun _ => true) (map_vp (fun _ => true) swAB 1 5 2 7).2.1 1 5 2 7).2.1.mapping
        = swAB.mapping :=
  ⟨⟨by decide, by decide, by decide⟩,
   (c5_amended_roundtrip_fresh_key (fun _ => true) (fun _ => rfl) swAB nioA nioB
      (by decide) (by decide) (by decide)).2.2⟩

/-- C6 counterexample: two devices that differ in both name and id
produce the very same port-conflict error for `add_nio` on an occupied
port 0 — the message is `"Port 0 isn't free"`, so it identifies neither
the device's name nor its id, contrary to the claim that every error
carries both. -/
theorem c6_counterexample :
    swN1.name ≠ swN2.name ∧ swN1.node_id ≠ swN2.node_id
    ∧ (add_nio swN1 nioB 0).2 = Except.error (Err.dynamips "Port 0 isn\x27t free")
    ∧ (add_nio swN1 nioB 0).2 = (add_nio swN2 nioB 0).2 := by
  decide

/-- C6 amended: every locally raised error identifies the specific port
or circuit key involved, but not the device's name or id: the
`DynamipsError` messages (port conflict, port not allocated, filter
already applied) carry the port number alone, and the circuit-not-mapped
`KeyError` from `del self._mapping[...]` carries the missing circuit key
`(port, vpi[, vci])` — name and id appear only in log output. -/
theorem c6_amended_error_messages_identify_port_only (sw : ATMSwitch)
    (ch : Channel) (nioCh : NioChannel) (p r s v1 v2 w1 w2 : Nat)
    (nio nioNew nioF : Nio) (f d : String)
    (hch : ∀ c, ch c = true)
    (hp : lookupA sw.nios p = some nio)
    (hr : lookupA sw.nios r = none)
    (hs : lookupA sw.nios s = some nioF)
    (hfi : nioF.input_filter.1.isSome = true)
    (hfo : nioF.output_filter.1.isSome = true)
    (hkv : lookupA sw.mapping (CircuitKey.vp p v1) = none)
    (hkc : lookupA sw.mapping (CircuitKey.vc p v1 w1) = none) :
    (add_nio sw nioNew p).2
        = Except.error (Err.dynamips ("Port " ++ toString p ++ " isn\x27t free"))
    ∧ (remove_nio sw r).2
        = Except.error (Err.dynamips ("Port " ++ toString r ++ " is not allocated"))
    ∧ (map_vp ch sw r v1 p v2).2.2
        = Except.error (Err.dynamips ("Port " ++ toString r ++ " is not allocated"))
    ∧ (start_capture nioCh sw s f d).2.2
        = Except.error (Err.dynamips ("Port " ++ toString s ++ " has already a filter applied"))
    ∧ (unmap_vp ch sw p v1 s v2).2.2
        = Except.error (Err.keyError (CircuitKey.vp p v1))
    ∧ (unmap_pvc ch sw p v1 w1 s v2 w2).2.2
        = Except.error (Err.keyError (CircuitKey.vc p v1 w1)) := by
  refine ⟨?_, ?_, ?_, ?_, ?_, ?_⟩
  · simp [add_nio, hp]
  · simp [remove_nio, hr]
  · simp [map_vp, hr]
  · simp [start_capture, hs, hfi, hfo]
  · simp [unmap_vp, hp, hs, hch, hkv]
  · simp [unmap_pvc, hp, hs, hch, hkc]

/-- Witness for the amended C6 at the concrete device `swBoth` (port 3
filtered on both directions, port 1 free, empty circuits table): the
messages and the `KeyError` key are checked concretely, and the device's
name and id play no role in them. -/
theorem c6_witness :
    (lookupA swBoth.nios 1 = none ∧ lookupA swBoth.nios 3 = some nioBoth
      ∧ nioBoth.input_filter.1.isSome = true ∧ nioBoth.output_filter.1.isSome = true
      ∧ lookupA swBoth.mapping (CircuitKey.vp 3 5) = none
      ∧ lookupA swBoth.mapping (CircuitKey.vc 3 5 100) = none)
    ∧ (remove_nio swBoth 1).2
        = Except.error (Err.dynamips "Port 1 is not allocated")
    ∧ (start_capture (fun _ => true) swBoth 3 "/tmp/out.pcap" "DLT_ATM_RFC1483").2.2
        = Except.error (Err.dynamips "Port 3 has already a filter applied")
    ∧ (unmap_vp (fun _ => true) swBoth 3 5 3 7).2.2
        = Except.error (Err.keyError (CircuitKey.vp 3 5)) :=
  ⟨⟨by decide, by decide, by decide, by decide, by decide, by decide⟩,
   (c6_amended_error_messages_identify_port_only swBoth (fun _ => true) (fun _ => true)
      3 1 3 5 7 100 200 nioBoth nioA nioBoth "/tmp/out.pcap" "DLT_ATM_RFC1483"
      (fun _ => rfl) (by decide) (by decide) (by decide) (by decide) (by decide)
      (by decide) (by decide)).2.1,
   (c6_amended_error_messages_identify_port_only swBoth (fun _ => true) (fun _ => true)
      3 1 3 5 7 100 200 nioBoth nioA nioBoth "/tmp/out.pcap" "DLT_ATM_RFC1483"
      (fun _ => rfl) (by decide) (by decide) (by decide) (by decide) (by decide)
      (by decide) (by decide)).2.2.2.1,
   (c6_amended_error_messages_identify_port_only swBoth (fun _ => true) (fun _ => true)
      3 1 3 5 7 100 200 nioBoth nioA nioBoth "/tmp/out.pcap" "DLT_ATM_RFC1483"
      (fun _ => rfl) (by decide) (by decide) (by decide) (by decide) (by decide)
      (by decide) (by decide)).2.2.2.2.1⟩

/-- C7: `start_capture` lower-cases the data-link-type tag and strips a
leading `"dlt_"` before handing it to the NIO's `setup_filter` step: on
an allocated, unfiltered port with a succeeding capability, the calls
are exactly `bind_filter("both", "capture")` then
`setup_filter("both", "<normalized tag> <output_file>")`; in particular
`"DLT_ATM_RFC1483"` is configured as `"atm_rfc1483"`. -/
theorem c7_dlt_normalization (nioCh : NioChannel) (hn : ∀ c, nioCh c = true)
    (sw : ATMSwitch) (p : Nat) (f d : String) (nio : Nio)
    (hl : lookupA sw.nios p = some nio)
    (hfree : (nio.input_filter.1.isSome && nio.output_filter.1.isSome) = false) :
    (start_capture nioCh sw p f d).1
      = [NioCall.bind "both" "capture",
         NioCall.setup "both"
           ((if pyStartsWith (pyLower d) "dlt_" then pyDrop (pyLower d) 4
             else pyLower d) ++ " " ++ f)]
    ∧ (start_capture (fun _ => true) swAB 1 "/tmp/out.pcap" "DLT_ATM_RFC1483").1
      = [NioCall.bind "both" "capture",
         NioCall.setup "both" "atm_rfc1483 /tmp/out.pcap"] := by
  constructor
  · simp [start_capture, hl, hfree, hn]
  · decide

/-- Witness for C7 at the concrete device `swAB` with the default
Python tag `"DLT_ATM_RFC1483"`. -/
theorem c7_witness :
    (lookupA swAB.nios 1 = some nioA
      ∧ (nioA.input_filter.1.isSome && nioA.output_filter.1.isSome) = false)
    ∧ (start_capture (fun _ => true) swAB 1 "/tmp/out.pcap" "DLT_ATM_RFC1483").1
      = [NioCall.bind "both" "capture",
         NioCall.setup "both" "atm_rfc1483 /tmp/out.pcap"] :=
  ⟨⟨by decide, by decide⟩,
   (c7_dlt_normalization (fun _ => true) (fun _ => rfl) swAB 1 "/tmp/out.pcap"
      "DLT_ATM_RFC1483" nioA (by decide) (by decide)).2⟩

/-- C9: with both ports allocated, the source key present, keys unique
(as in a Python dict), and an acknowledging channel, `unmap_vp` removes
exactly the `(port1, vpi1)` entry and `unmap_pvc` exactly the
`(port1, vpi1, vci1)` entry: the operation succeeds, the ports table is
unchanged, the removed key no longer resolves, and every other circuit
key — the destination key included — still resolves to the same value. -/
theorem c9_unmap_removes_exactly_source_key (ch : Channel) (hch : ∀ c, ch c = true)
    (sw : ATMSwitch) (p1 v1 w1 p2 v2 w2 : Nat) (nio1 nio2 : Nio)
    (hl1 : lookupA sw.nios p1 = some nio1) (hl2 : lookupA sw.nios p2 = some nio2)
    (hnd : (sw.mapping.map Prod.fst).Nodup)
    (hmv : (lookupA sw.mapping (CircuitKey.vp p1 v1)).isSome = true)
    (hmc : (lookupA sw.mapping (CircuitKey.vc p1 v1 w1)).isSome = true) :
    ((unmap_vp ch sw p1 v1 p2 v2).2.2 = Except.ok ()
      ∧ (unmap_vp ch sw p1 v1 p2 v2).2.1.nios = sw.nios
      ∧ (unmap_vp ch sw p1 v1 p2 v2).2.1.mapping = eraseA sw.mapping (CircuitKey.vp p1 v1)
      ∧ lookupA (unmap_vp ch sw p1 v1 p2 v2).2.1.mapping (CircuitKey.vp p1 v1) = none
      ∧ ∀ k, k ≠ CircuitKey.vp p1 v1 →
          lookupA (unmap_vp ch sw p1 v1 p2 v2).2.1.mapping k = lookupA sw.mapping k)
    ∧ ((unmap_pvc ch sw p1 v1 w1 p2 v2 w2).2.2 = Except.ok ()
      ∧ (unmap_pvc ch sw p1 v1 w1 p2 v2 w2).2.1.nios = sw.nios
      ∧ (unmap_pvc ch sw p1 v1 w1 p2 v2 w2).2.1.mapping
          = eraseA sw.mapping (CircuitKey.vc p1 v1 w1)
      ∧ lookupA (unmap_pvc ch sw p1 v1 w1 p2 v2 w2).2.1.mapping (CircuitKey.vc p1 v1 w1) = none
      ∧ ∀ k, k ≠ CircuitKey.vc p1 v1 w1 →
          lookupA (unmap_pvc ch sw p1 v1 w1 p2 v2 w2).2.1.mapping k = lookupA sw.mapping k) := by
  obtain ⟨dv, hdv⟩ := Option.isSome_iff_exists.mp hmv
  obtain ⟨dc, hdc⟩ := Option.isSome_iff_exists.mp hmc
  constructor
  · refine ⟨?_, ?_, ?_, ?_, ?_⟩
    · simp [unmap_vp, hl1, hl2, hch, hdv]
    · simp [unmap_vp, hl1, hl2, hch, hdv]
    · simp [unmap_vp, hl1, hl2, hch, hdv]
    · simp [unmap_vp, hl1, hl2, hch, hdv,
        lookupA_eraseA_self sw.mapping (CircuitKey.vp p1 v1) hnd]
    · intro k hk
      simp [unmap_vp, hl1, hl2, hch, hdv,
        lookupA_eraseA_ne sw.mapping (CircuitKey.vp p1 v1) k hk]
  · refine ⟨?_, ?_, ?_, ?_, ?_⟩
    · simp [unmap_pvc, hl1, hl2, hch, hdc]
    · simp [unmap_pvc, hl1, hl2, hch, hdc]
    · simp [unmap_pvc, hl1, hl2, hch, hdc]
    · simp [unmap_pvc, hl1, hl2, hch, hdc,
        lookupA_eraseA_self sw.mapping (CircuitKey.vc p1 v1 w1) hnd]
    · intro k hk
      simp [unmap_pvc, hl1, hl2, hch, hdc,
        lookupA_eraseA_ne sw.mapping (CircuitKey.vc p1 v1 w1) k hk]

/-- Witness for C9 at the concrete device `swCirc`, whose circuits table
holds a VP circuit at `(1,5)`, a VC circuit at `(1,5,100)` and a third
circuit at `(2,9)` that must survive the unmap. -/
theorem c9_witness :
    (lookupA swCirc.nios 1 = some nioA ∧ lookupA swCirc.nios 2 = some nioB
      ∧ (swCirc.mapping.map Prod.fst).Nodup
      ∧ (lookupA swCirc.mapping (CircuitKey.vp 1 5)).isSome = true
      ∧ (lookupA swCirc.mapping (CircuitKey.vc 1 5 100)).isSome = true)
    ∧ lookupA (unmap_vp (fun _ => true) swCirc 1 5 2 7).2.1.mapping (CircuitKey.vp 1 5) = none
    ∧ lookupA (unmap_vp (fun _ => true) swCirc 1 5 2 7).2.1.mapping (CircuitKey.vp 2 9)
        = lookupA swCirc.mapping (CircuitKey.vp 2 9) :=
  ⟨⟨by decide, by decide, by decide, by decide, by decide⟩,
   (c9_unmap_removes_exactly_source_key (fun _ => true) (fun _ => rfl) swCirc
      1 5 100 2 7 200 nioA nioB (by decide) (by decide) (by decide)
      (by decide) (by decide)).1.2.2.2.1,
   (c9_unmap_removes_exactly_source_key (fun _ => true) (fun _ => rfl) swCirc
      1 5 100 2 7 200 nioA nioB (by decide) (by decide) (by decide)
      (by decide) (by decide)).1.2.2.2.2 (CircuitKey.vp 2 9) (by decide)⟩

end ATMSw
